import Mathlib

/-!
Shallow embedding of the `stellar-defi-sdk` package (MattPoblete/crossmint):
the Soroswap DEX sub-client (`src/dex/soroswap.ts`), the Crossmint wallet
sub-client (`src/wallet/crossmint.ts`), the Defindex yield sub-client
(`src/yield/index.ts`), the error hierarchy (`src/errors/index.ts`) and the
facade client (`src/client.ts`).

Modelling conventions:
  - JS `bigint` values are `Int` (BigInt division truncates toward zero,
    embedded as `Int.tdiv`).
  - External collaborators (the Soroswap quoting SDK, `fetch`) are passed in
    as explicit outcome parameters: an async method that consults one of them
    becomes a pure function of that outcome.  A second component of the
    result records whether the external call was actually reached.
  - A JS `throw` becomes `Except.error` over the type `Thrown` of throwable
    values; `catch` branches are translated literally.
  - Base64/JSON serialization of the placeholder transaction payloads is
    injective and never fails, so transactions are modelled as the structured
    `txData` records the source serializes.
  - Floating-point fields (`priceImpact`, `apy`) are carried as inert data
    (the raw SDK string, resp. rationals); no claim computes with them.
-/

namespace StellarDefi

/-- The `name` field distinguishing the `StellarDefiError` subclasses of
`src/errors/index.ts`. -/
inductive ErrName where
  | stellarDefi
  | wallet
  | dex
  | yieldE
  | network
  | transaction
  | configuration
deriving Repr, DecidableEq

/-- A JS throwable value as observed by a `catch` block: either one of the
repository's own `StellarDefiError` subclasses (name, message, code, optional
cause), some other `Error` (just a message), or a non-`Error` thrown value. -/
inductive Thrown where
  | domain (name : ErrName) (message : String) (code : String) (cause : Option Thrown)
  | js (message : String)
  | nonError

/-- `error instanceof DexError`. -/
def Thrown.isDexError : Thrown → Bool
  | .domain .dex _ _ _ => true
  | _ => false

/-- `error instanceof WalletError`. -/
def Thrown.isWalletError : Thrown → Bool
  | .domain .wallet _ _ _ => true
  | _ => false

/-- `error instanceof YieldError`. -/
def Thrown.isYieldError : Thrown → Bool
  | .domain .yieldE _ _ _ => true
  | _ => false

/-- `error instanceof Error` (every `StellarDefiError` extends `Error`). -/
def Thrown.isError : Thrown → Bool
  | .domain _ _ _ _ => true
  | .js _ => true
  | .nonError => false

/-- `error instanceof Error ? error.message : 'Unknown error'`. -/
def Thrown.errMessage : Thrown → String
  | .domain _ m _ _ => m
  | .js m => m
  | .nonError => "Unknown error"

/-- `error instanceof Error ? error : undefined` (the wrapped cause). -/
def Thrown.asCause (t : Thrown) : Option Thrown :=
  if t.isError then some t else none

/-- The `code` field of a thrown domain error (empty for non-domain values). -/
def Thrown.errCode : Thrown → String
  | .domain _ _ c _ => c
  | _ => ""

/-- The `cause` field of a thrown domain error. -/
def Thrown.errCause : Thrown → Option Thrown
  | .domain _ _ _ c => c
  | _ => none

/-- Error codes from `src/errors/index.ts` (`ErrorCodes`), restricted to the
ones the embedded methods use. -/
def ErrorCodes.INVALID_TOKEN : String := "INVALID_TOKEN"

def ErrorCodes.INSUFFICIENT_LIQUIDITY : String := "INSUFFICIENT_LIQUIDITY"

def ErrorCodes.SWAP_FAILED : String := "SWAP_FAILED"

def ErrorCodes.MISSING_API_KEY : String := "MISSING_API_KEY"

def ErrorCodes.WALLET_NOT_FOUND : String := "WALLET_NOT_FOUND"

def ErrorCodes.WALLET_CREATION_FAILED : String := "WALLET_CREATION_FAILED"

def ErrorCodes.VAULT_NOT_FOUND : String := "VAULT_NOT_FOUND"

def ErrorCodes.DEPOSIT_FAILED : String := "DEPOSIT_FAILED"

def ErrorCodes.WITHDRAW_FAILED : String := "WITHDRAW_FAILED"

/-- JS `s.startsWith('C')`: the first character is `'C'` (embedded over the
character list so that closed terms evaluate in the kernel). -/
def startsWithC (s : String) : Bool :=
  s.data.head? == some 'C'

/-- `SoroswapDex.isValidAddress` / `DefindexYield.isValidAddress`:
`address.length === 56 && address.startsWith('C')` (JS string length counts
UTF-16 code units; for the code-point range of Stellar addresses this agrees
with `String.length`). -/
def isValidAddress (address : String) : Bool :=
  address.length == 56 && startsWithC address

/-- Trade type (`src/dex/types.ts`): `'EXACT_IN' | 'EXACT_OUT'`. -/
inductive TradeType where
  | EXACT_IN
  | EXACT_OUT
deriving Repr, DecidableEq

/-- `QuoteParams` from `src/dex/types.ts`. -/
structure QuoteParams where
  tokenIn : String
  tokenOut : String
  amount : Int
  tradeType : TradeType
deriving Repr, DecidableEq

/-- One step of the SDK response's `routePlan`. -/
structure RouteStep where
  path : List String
  percent : String
deriving Repr, DecidableEq

/-- The response of `soroswapSdk.quote` as consumed by `getQuote`
(`amountIn`/`amountOut` after the `BigInt(...)` conversion). -/
structure SdkQuoteResponse where
  amountIn : Int
  amountOut : Int
  priceImpactPct : String
  routePlan : Option (List RouteStep)
deriving Repr, DecidableEq

/-- `Quote` from `src/dex/types.ts` (`priceImpact` kept as the raw SDK
string, see the header note on floats). -/
structure Quote where
  tokenIn : String
  tokenOut : String
  amountIn : Int
  amountOut : Int
  priceImpactPct : String
  route : List String
  minimumReceived : Option Int
  maximumSent : Option Int
deriving Repr, DecidableEq

/-- `SoroswapDex.applySlippage`:
`(amount * BigInt(10000 - slippageBps)) / 10000n` (BigInt `/` truncates
toward zero). -/
def applySlippage (amount : Int) (slippageBps : Int) : Int :=
  Int.tdiv (amount * (10000 - slippageBps)) 10000

/-- `SoroswapDex.applySlippageMax`:
`(amount * BigInt(10000 + slippageBps)) / 10000n`. -/
def applySlippageMax (amount : Int) (slippageBps : Int) : Int :=
  Int.tdiv (amount * (10000 + slippageBps)) 10000

/-- Inner loop of `SoroswapDex.extractRoute`: push each path asset not yet
present onto the route. -/
def pushAssets (route : List String) (path : List String) : List String :=
  path.foldl (fun r asset => if r.contains asset then r else r ++ [asset]) route

/-- `SoroswapDex.extractRoute`. -/
def extractRoute (routePlan : Option (List RouteStep)) (tokenIn tokenOut : String) :
    List String :=
  match routePlan with
  | none => [tokenIn, tokenOut]
  | some plan =>
    if plan.length == 0 then [tokenIn, tokenOut]
    else
      let route := plan.foldl (fun r step => pushAssets r step.path) []
      if route.length > 0 then route else [tokenIn, tokenOut]

/-- `SoroswapDex.getQuote` (`src/dex/soroswap.ts` lines 68-109).  `sdk` is the
outcome of the `soroswapSdk.quote` call; the second result component records
whether that call was reached. -/
def getQuote (sdk : Except Thrown SdkQuoteResponse) (params : QuoteParams) :
    Except Thrown Quote × Bool :=
  if !(isValidAddress params.tokenIn) || !(isValidAddress params.tokenOut) then
    (.error (.domain .dex "Invalid token address" ErrorCodes.INVALID_TOKEN none), false)
  else
    match sdk with
    | .error err =>
      if err.isDexError then (.error err, true)
      else
        (.error (.domain .dex ("Failed to get quote: " ++ err.errMessage)
          ErrorCodes.INSUFFICIENT_LIQUIDITY err.asCause), true)
    | .ok resp =>
      let amountIn := if params.tradeType = .EXACT_IN then params.amount else resp.amountIn
      let amountOut := if params.tradeType = .EXACT_OUT then params.amount else resp.amountOut
      (.ok {
        tokenIn := params.tokenIn
        tokenOut := params.tokenOut
        amountIn := amountIn
        amountOut := amountOut
        priceImpactPct := resp.priceImpactPct
        route := extractRoute resp.routePlan params.tokenIn params.tokenOut
        minimumReceived :=
          if params.tradeType = .EXACT_IN then some (applySlippage amountOut 100) else none
        maximumSent :=
          if params.tradeType = .EXACT_OUT then some (applySlippageMax amountIn 100) else none
      }, true)

/-- `SwapParams` from `src/dex/types.ts` (optional fields as `Option`). -/
structure SwapParams where
  tokenIn : String
  tokenOut : String
  amount : Int
  tradeType : TradeType
  slippageBps : Option Int
  deadline : Option Int
  sourceAddress : String
deriving Repr, DecidableEq

/-- The `txData` record `SoroswapDex.buildSwapTransaction` serializes
(amount fields after `.toString()`). -/
structure SwapTxData where
  type : String
  tokenIn : String
  tokenOut : String
  amountIn : String
  amountOut : String
  path : List String
  toAddr : String
  deadline : Int
deriving Repr, DecidableEq

/-- `SoroswapDex.buildSwapTransaction` (`src/dex/soroswap.ts` lines 114-164).
`sdk` is the outcome of the `soroswapSdk.quote` call made by the inner
`getQuote`; `now` is `Math.floor(Date.now() / 1000)`; the Bool records
whether the SDK call was reached. -/
def buildSwapTransaction (sdk : Except Thrown SdkQuoteResponse) (now : Int)
    (params : SwapParams) : Except Thrown SwapTxData × Bool :=
  if !(isValidAddress params.tokenIn) || !(isValidAddress params.tokenOut) then
    (.error (.domain .dex "Invalid token address" ErrorCodes.INVALID_TOKEN none), false)
  else
    match getQuote sdk { tokenIn := params.tokenIn, tokenOut := params.tokenOut,
                         amount := params.amount, tradeType := params.tradeType } with
    | (.error e, called) =>
      if e.isDexError then (.error e, called)
      else
        (.error (.domain .dex "Failed to build swap transaction" ErrorCodes.SWAP_FAILED
          e.asCause), called)
    | (.ok quote, called) =>
      let slippageBps := params.slippageBps.getD 100
      let minAmountOut :=
        if params.tradeType = .EXACT_IN then applySlippage quote.amountOut slippageBps
        else quote.amountOut
      let maxAmountIn :=
        if params.tradeType = .EXACT_OUT then applySlippageMax quote.amountIn slippageBps
        else quote.amountIn
      (.ok {
        type := if params.tradeType = .EXACT_IN then "swap_exact_tokens_for_tokens"
                else "swap_tokens_for_exact_tokens"
        tokenIn := params.tokenIn
        tokenOut := params.tokenOut
        amountIn := toString (if params.tradeType = .EXACT_IN then params.amount else maxAmountIn)
        amountOut := toString (if params.tradeType = .EXACT_OUT then params.amount else minAmountOut)
        path := quote.route
        toAddr := params.sourceAddress
        deadline := params.deadline.getD (now + 1800)
      }, called)

/-- `TokenInfo` from `src/dex/types.ts`. -/
structure TokenInfo where
  address : String
  symbol : String
  name : String
  decimals : Int
deriving Repr, DecidableEq

/-- `Pool` from `src/dex/types.ts` (`fee` kept inert, claims never read it). -/
structure Pool where
  address : String
  tokenA : TokenInfo
  tokenB : TokenInfo
  reserveA : Int
  reserveB : Int
  totalShares : Int
deriving Repr, DecidableEq

/-- `SoroswapDex.getPool` (`src/dex/soroswap.ts` lines 186-204): invalid
addresses resolve to `null`; the placeholder body also resolves to `null`. -/
def getPool (tokenA tokenB : String) : Except Thrown (Option Pool) :=
  if !(isValidAddress tokenA) || !(isValidAddress tokenB) then
    .ok none
  else
    .ok none

/-- Network selector (`src/config/networks.ts`, re-exported everywhere):
`'testnet' | 'mainnet'`. -/
inductive Network where
  | testnet
  | mainnet
deriving Repr, DecidableEq

/-- `DepositParams` from `src/yield/types.ts` as used by
`buildDepositTransaction`. -/
structure DepositParams where
  vault : String
  amounts : List Int
  sourceAddress : String
  slippageBps : Option Int
  invest : Option Bool
deriving Repr, DecidableEq

/-- The `txData` record `DefindexYield.buildDepositTransaction` serializes. -/
structure DepositTxData where
  type : String
  vault : String
  amounts : List String
  minShares : String
  toAddr : String
  invest : Bool
  slippageBps : Int
deriving Repr, DecidableEq

/-- `DefindexYield.buildDepositTransaction` (`src/yield/index.ts`). -/
def buildDepositTransaction (params : DepositParams) : Except Thrown DepositTxData :=
  if !(isValidAddress params.vault) then
    .error (.domain .yieldE "Invalid vault address" ErrorCodes.VAULT_NOT_FOUND none)
  else
    .ok {
      type := "deposit"
      vault := params.vault
      amounts := params.amounts.map toString
      minShares := "0"
      toAddr := params.sourceAddress
      invest := params.invest.getD false
      slippageBps := params.slippageBps.getD 100
    }

/-- `WithdrawParams` from `src/yield/types.ts` as used by
`buildWithdrawTransaction`. -/
structure WithdrawParams where
  vault : String
  shares : Int
  sourceAddress : String
  slippageBps : Option Int
  withdrawAssets : Option (List String)
deriving Repr, DecidableEq

/-- The `txData` record `DefindexYield.buildWithdrawTransaction` serializes. -/
structure WithdrawTxData where
  type : String
  vault : String
  shares : String
  minAmounts : List String
  toAddr : String
  withdrawAssets : List String
  slippageBps : Int
deriving Repr, DecidableEq

/-- `DefindexYield.buildWithdrawTransaction` (`src/yield/index.ts`). -/
def buildWithdrawTransaction (params : WithdrawParams) : Except Thrown WithdrawTxData :=
  if !(isValidAddress params.vault) then
    .error (.domain .yieldE "Invalid vault address" ErrorCodes.VAULT_NOT_FOUND none)
  else
    .ok {
      type := "withdraw"
      vault := params.vault
      shares := toString params.shares
      minAmounts := []
      toAddr := params.sourceAddress
      withdrawAssets := params.withdrawAssets.getD []
      slippageBps := params.slippageBps.getD 100
    }

/-- An asset entry of a vault (`src/yield/types.ts`). -/
structure VaultAsset where
  address : String
  symbol : String
  name : String
  decimals : Int
  allocation : Int
deriving Repr, DecidableEq

/-- A strategy entry of a vault (`apy` as a rational, see the header note). -/
structure VaultStrategy where
  address : String
  name : String
  type : String
  allocation : Int
  apy : ℚ
deriving Repr, DecidableEq

/-- `VaultDetail` from `src/yield/types.ts`. -/
structure VaultDetail where
  address : String
  name : String
  symbol : String
  assets : List VaultAsset
  strategies : List VaultStrategy
  tvl : Int
  totalShares : Int
  apy : ℚ
  manager : String
  emergencyManager : String
  feeReceiver : String
  performanceFee : ℚ
  managementFee : ℚ
deriving Repr, DecidableEq

/-- The hard-coded mock vault record `DefindexYield.getVault` returns for a
valid address (`src/yield/index.ts`). -/
def mockVaultDetail (address : String) : VaultDetail :=
  {
      address := address
      name := "Test Vault"
      symbol := "dfTEST"
      assets := [{
        address := "CDLZFC3SYJYDZT7K67VZ75HPJVIEUVNIXF47ZG2FB2RMQQVU2HHGCYSC"
        symbol := "XLM"
        name := "Stellar Lumens"
        decimals := 7
        allocation := 100
      }]
      strategies := [{
        address := "CSTRATEGY12345678901234567890123456789012345678901234"
        name := "Blend Strategy"
        type := "blend"
        allocation := 100
        apy := 5.5
      }]
      tvl := 1000000000000
      totalShares := 1000000000
      apy := 5.5
      manager := "GDMANAGER123456789"
      emergencyManager := "GDEMERGENCY123456789"
      feeReceiver := "GDFEES123456789"
      performanceFee := 10
      managementFee := 2
  }

/-- `DefindexYield.getVault` (`src/yield/index.ts`): address validation, then
the mock vault record. -/
def getVault (address : String) : Except Thrown VaultDetail :=
  if !(isValidAddress address) then
    .error (.domain .yieldE "Invalid vault address" ErrorCodes.VAULT_NOT_FOUND none)
  else
    .ok (mockVaultDetail address)

/-- `CrossmintWalletConfig` from `src/wallet/types.ts`. -/
structure CrossmintWalletConfig where
  apiKey : String
  network : Network
  rpcUrl : Option String
  baseUrl : Option String
deriving Repr, DecidableEq

/-- The immutable fields a constructed `CrossmintWallet` instance holds
(`rpcUrl` resolution by `getNetworkConfig` is irrelevant to every claim and
carried as the raw override). -/
structure CrossmintWalletState where
  apiKey : String
  network : Network
  baseUrl : String
deriving Repr, DecidableEq

/-- The `CrossmintWallet` constructor (`src/wallet/crossmint.ts` lines
40-62): the synchronous `!config.apiKey` guard (for a string, falsy iff
empty), then the field assignments.  No `fetch` occurs here. -/
def CrossmintWallet.mkState (config : CrossmintWalletConfig) :
    Except Thrown CrossmintWalletState :=
  if config.apiKey = "" then
    .error (.domain .configuration "API key is required" ErrorCodes.MISSING_API_KEY none)
  else
    .ok {
      apiKey := config.apiKey
      network := config.network
      baseUrl := config.baseUrl.getD
        (if config.network = .mainnet then "https://www.crossmint.com/api"
         else "https://staging.crossmint.com/api")
    }

/-- `SignerInfo` from `src/wallet/types.ts` (kind/role as plain strings). -/
structure SignerInfo where
  type : String
  publicKey : String
  role : String
deriving Repr, DecidableEq

/-- `WalletInfo` from `src/wallet/types.ts` (`policies` as inert ids). -/
structure WalletInfo where
  address : String
  publicKey : String
  signers : List SignerInfo
  policies : List String
  network : Network
deriving Repr, DecidableEq

/-- Outcome of one `fetch` + body-parse round trip as `getWallet` consumes
it: a 2xx response with a parsed `WalletInfo` body, a non-2xx response with
its status and the optional `error` field of its JSON body, or a thrown
value (network failure, parse failure). -/
inductive FetchOutcome where
  | success (data : WalletInfo)
  | failure (status : Nat) (errMsg : Option String)
  | thrown (t : Thrown)

/-- `CrossmintWallet.getWallet` (`src/wallet/crossmint.ts` lines 147-182).
The `address` parameter only reaches the request URL, which is not
modelled. -/
def getWallet (st : CrossmintWalletState) (address : String) (fetch : FetchOutcome) :
    Except Thrown WalletInfo :=
  match fetch with
  | .success data => .ok { data with network := st.network }
  | .failure status errMsg =>
    if status = 404 then
      .error (.domain .wallet "Wallet not found" ErrorCodes.WALLET_NOT_FOUND none)
    else
      .error (.domain .wallet (errMsg.getD "Failed to get wallet")
        ErrorCodes.WALLET_NOT_FOUND none)
  | .thrown t =>
    if t.isWalletError then .error t
    else .error (.domain .wallet "Wallet not found" ErrorCodes.WALLET_NOT_FOUND t.asCause)

/-- `SwapAndDepositParams` from `src/client.ts`. -/
structure SwapAndDepositParams where
  sourceAddress : String
  tokenIn : String
  tokenOut : String
  amountIn : Int
  vault : String
  slippageBps : Option Int
  invest : Option Bool
deriving Repr, DecidableEq

/-- `SwapAndDepositResult` from `src/client.ts` (XDR strings as the
structured payloads they encode). -/
structure SwapAndDepositResult where
  swapTxXdr : SwapTxData
  depositTxXdr : DepositTxData
  estimatedAmountOut : Int
  estimatedShares : Int
deriving Repr, DecidableEq

/-- `WithdrawAndSwapParams` from `src/client.ts`. -/
structure WithdrawAndSwapParams where
  sourceAddress : String
  vault : String
  shares : Int
  tokenOut : String
  slippageBps : Option Int
deriving Repr, DecidableEq

/-- `WithdrawAndSwapResult` from `src/client.ts` (`swapTxXdr` optional). -/
structure WithdrawAndSwapResult where
  withdrawTxXdr : WithdrawTxData
  swapTxXdr : Option SwapTxData
  estimatedAmountOut : Int
deriving Repr, DecidableEq

/-- One sub-client call issued by a `StellarDefiClient` compound operation,
with the arguments it was issued with. -/
inductive ClientCall where
  | dexGetQuote (p : QuoteParams)
  | dexBuildSwap (p : SwapParams)
  | yieldBuildDeposit (p : DepositParams)
  | yieldGetVault (address : String)
  | yieldBuildWithdraw (p : WithdrawParams)
deriving Repr, DecidableEq

/-- External-world outcomes a compound client operation may consume: the
Soroswap SDK quote results for the (up to two) quoting calls it can trigger,
and the wall-clock second used for default deadlines. -/
structure ClientEnv where
  sdkQuoteA : Except Thrown SdkQuoteResponse
  sdkQuoteB : Except Thrown SdkQuoteResponse
  now : Int

/-- `StellarDefiClient.swapAndDeposit` (`src/client.ts` lines 203-237):
quote, swap build, deposit build, strictly in that order, each `await`ed and
each failure propagating.  The second component is the ordered list of
sub-client calls issued. -/
def swapAndDeposit (env : ClientEnv) (params : SwapAndDepositParams) :
    Except Thrown SwapAndDepositResult × List ClientCall :=
  let qp : QuoteParams := {
    tokenIn := params.tokenIn
    tokenOut := params.tokenOut
    amount := params.amountIn
    tradeType := .EXACT_IN
  }
  match (getQuote env.sdkQuoteA qp).1 with
  | .error e => (.error e, [.dexGetQuote qp])
  | .ok quote =>
    let sp : SwapParams := {
      tokenIn := params.tokenIn
      tokenOut := params.tokenOut
      amount := params.amountIn
      tradeType := .EXACT_IN
      slippageBps := params.slippageBps
      deadline := none
      sourceAddress := params.sourceAddress
    }
    match (buildSwapTransaction env.sdkQuoteB env.now sp).1 with
    | .error e => (.error e, [.dexGetQuote qp, .dexBuildSwap sp])
    | .ok swapTx =>
      let dp : DepositParams := {
        vault := params.vault
        amounts := [quote.amountOut]
        sourceAddress := params.sourceAddress
        slippageBps := params.slippageBps
        invest := params.invest
      }
      match buildDepositTransaction dp with
      | .error e =>
        (.error e, [.dexGetQuote qp, .dexBuildSwap sp, .yieldBuildDeposit dp])
      | .ok depositTx =>
        (.ok {
          swapTxXdr := swapTx
          depositTxXdr := depositTx
          estimatedAmountOut := quote.amountOut
          estimatedShares := 0
        }, [.dexGetQuote qp, .dexBuildSwap sp, .yieldBuildDeposit dp])

/-- `StellarDefiClient.withdrawAndSwap` (`src/client.ts` lines 250-291):
vault fetch, withdraw build, then conditionally a swap build when the vault's
first asset (`vault.assets[0]?.address`) differs from `params.tokenOut`. -/
def withdrawAndSwap (env : ClientEnv) (params : WithdrawAndSwapParams) :
    Except Thrown WithdrawAndSwapResult × List ClientCall :=
  match getVault params.vault with
  | .error e => (.error e, [.yieldGetVault params.vault])
  | .ok vault =>
    let wp : WithdrawParams := {
      vault := params.vault
      shares := params.shares
      sourceAddress := params.sourceAddress
      slippageBps := params.slippageBps
      withdrawAssets := none
    }
    match buildWithdrawTransaction wp with
    | .error e => (.error e, [.yieldGetVault params.vault, .yieldBuildWithdraw wp])
    | .ok withdrawTx =>
      let vaultAsset := (vault.assets.head?).map VaultAsset.address
      if vaultAsset = some params.tokenOut then
        (.ok {
          withdrawTxXdr := withdrawTx
          swapTxXdr := none
          estimatedAmountOut := params.shares
        }, [.yieldGetVault params.vault, .yieldBuildWithdraw wp])
      else
        match vaultAsset with
        | some asset =>
          let sp : SwapParams := {
            tokenIn := asset
            tokenOut := params.tokenOut
            amount := params.shares
            tradeType := .EXACT_IN
            slippageBps := params.slippageBps
            deadline := none
            sourceAddress := params.sourceAddress
          }
          match (buildSwapTransaction env.sdkQuoteB env.now sp).1 with
          | .error e =>
            (.error e, [.yieldGetVault params.vault, .yieldBuildWithdraw wp, .dexBuildSwap sp])
          | .ok swapTx =>
            (.ok {
              withdrawTxXdr := withdrawTx
              swapTxXdr := some swapTx
              estimatedAmountOut := params.shares
            }, [.yieldGetVault params.vault, .yieldBuildWithdraw wp, .dexBuildSwap sp])
        | none =>
          (.ok {
            withdrawTxXdr := withdrawTx
            swapTxXdr := none
            estimatedAmountOut := params.shares
          }, [.yieldGetVault params.vault, .yieldBuildWithdraw wp])

/-! Concrete addresses used in witnesses: the testnet XLM and USDC token
contracts from `src/config/contracts.ts` (both 56 characters, 'C'-prefixed).
`xlmAddr` is also the asset address of the mock vault in `getVault`. -/

def xlmAddr : String := "CDLZFC3SYJYDZT7K67VZ75HPJVIEUVNIXF47ZG2FB2RMQQVU2HHGCYSC"

def usdcAddr : String := "CBIELTK6YBZJU5UP2WWQEUCYKLPU6AUNZ2BQ4WWFEIE3USCIHMXQDAMA"

/-- C1: a `getQuote` or `buildSwapTransaction` call whose `tokenIn` or
`tokenOut` fails the 56-character/'C'-prefix rule fails with a `DexError` of
code `INVALID_TOKEN`, and the `soroswapSdk.quote` call is never attempted
(the call-flag component is `false`). -/
theorem getQuote_buildSwap_invalid_token
    (sdk : Except Thrown SdkQuoteResponse) (now : Int)
    (qp : QuoteParams) (sp : SwapParams)
    (hq : (isValidAddress qp.tokenIn && isValidAddress qp.tokenOut) = false)
    (hs : (isValidAddress sp.tokenIn && isValidAddress sp.tokenOut) = false) :
    getQuote sdk qp =
      (.error (.domain .dex "Invalid token address" ErrorCodes.INVALID_TOKEN none), false) ∧
    buildSwapTransaction sdk now sp =
      (.error (.domain .dex "Invalid token address" ErrorCodes.INVALID_TOKEN none), false) := by
  constructor
  · cases h1 : isValidAddress qp.tokenIn <;> cases h2 : isValidAddress qp.tokenOut <;>
      simp_all [getQuote]
  · cases h1 : isValidAddress sp.tokenIn <;> cases h2 : isValidAddress sp.tokenOut <;>
      simp_all [buildSwapTransaction]

/-- Witness for C1: a too-short `tokenIn` (`"CINVALID"`, 8 characters). -/
theorem getQuote_buildSwap_invalid_token_witness :
    (isValidAddress "CINVALID" && isValidAddress usdcAddr) = false ∧
    (getQuote (.error .nonError) ⟨"CINVALID", usdcAddr, 1000, .EXACT_IN⟩ =
      (.error (.domain .dex "Invalid token address" ErrorCodes.INVALID_TOKEN none), false) ∧
    buildSwapTransaction (.error .nonError) 0
        ⟨"CINVALID", usdcAddr, 1000, .EXACT_IN, none, none, "GDTEST123456789"⟩ =
      (.error (.domain .dex "Invalid token address" ErrorCodes.INVALID_TOKEN none), false)) :=
  ⟨by decide,
   getQuote_buildSwap_invalid_token (.error .nonError) 0
     ⟨"CINVALID", usdcAddr, 1000, .EXACT_IN⟩
     ⟨"CINVALID", usdcAddr, 1000, .EXACT_IN, none, none, "GDTEST123456789"⟩
     (by decide) (by decide)⟩

/-- C2: for a non-negative amount and a slippage value in `[0, 10000]` basis
points, `applySlippage` is the floor of `amount * (10000 - bps) / 10000` and
is at most `amount`, while `applySlippageMax` is the floor of
`amount * (10000 + bps) / 10000` and is at least `amount`. -/
theorem applySlippage_bounds (amount slippageBps : Int)
    (hamt : 0 ≤ amount) (h0 : 0 ≤ slippageBps) (h1 : slippageBps ≤ 10000) :
    applySlippage amount slippageBps = Int.fdiv (amount * (10000 - slippageBps)) 10000 ∧
    applySlippage amount slippageBps ≤ amount ∧
    applySlippageMax amount slippageBps = Int.fdiv (amount * (10000 + slippageBps)) 10000 ∧
    amount ≤ applySlippageMax amount slippageBps := by
  refine ⟨?_, ?_, ?_, ?_⟩
  · unfold applySlippage
    rw [Int.tdiv_eq_ediv (by nlinarith) (by norm_num), Int.fdiv_eq_ediv _ (by norm_num)]
  · unfold applySlippage
    rw [Int.tdiv_eq_ediv (by nlinarith) (by norm_num)]
    calc amount * (10000 - slippageBps) / 10000 ≤ amount * 10000 / 10000 := by
          apply Int.ediv_le_ediv (by norm_num)
          nlinarith
      _ = amount := Int.mul_ediv_cancel amount (by norm_num)
  · unfold applySlippageMax
    rw [Int.tdiv_eq_ediv (by nlinarith) (by norm_num), Int.fdiv_eq_ediv _ (by norm_num)]
  · unfold applySlippageMax
    rw [Int.tdiv_eq_ediv (by nlinarith) (by norm_num)]
    calc amount = amount * 10000 / 10000 := (Int.mul_ediv_cancel amount (by norm_num)).symm
      _ ≤ amount * (10000 + slippageBps) / 10000 := by
          apply Int.ediv_le_ediv (by norm_num)
          nlinarith

/-- Witness for C2 at the spec's worked example: amount `997000000`, default
slippage `100` bps. -/
theorem applySlippage_bounds_witness :
    (0 : Int) ≤ 997000000 ∧ (0 : Int) ≤ 100 ∧ (100 : Int) ≤ 10000 ∧
    (applySlippage 997000000 100 = Int.fdiv (997000000 * (10000 - 100)) 10000 ∧
     applySlippage 997000000 100 ≤ 997000000 ∧
     applySlippageMax 997000000 100 = Int.fdiv (997000000 * (10000 + 100)) 10000 ∧
     (997000000 : Int) ≤ applySlippageMax 997000000 100) :=
  ⟨by norm_num, by norm_num, by norm_num,
   applySlippage_bounds 997000000 100 (by norm_num) (by norm_num) (by norm_num)⟩

/-- C3 counterexample: `getQuote` takes its counter-amount from the SDK
response, not from a local flat-fee formula.  With a successful SDK response
reporting `amountOut = 500` for an EXACT_IN quote of `amount = 1000` between
two valid tokens, the returned quote has `amountOut = 500`, while the claim's
`floor(amountIn * 997 / 1000)` is `997`. -/
theorem getQuote_flat_fee_counterexample :
    isValidAddress xlmAddr = true ∧ isValidAddress usdcAddr = true ∧ (0 : Int) < 1000 ∧
    (getQuote (.ok ⟨999, 500, "0.1", none⟩) ⟨xlmAddr, usdcAddr, 1000, .EXACT_IN⟩).1 =
      .ok ⟨xlmAddr, usdcAddr, 1000, 500, "0.1", [xlmAddr, usdcAddr], some 495, none⟩ ∧
    (500 : Int) ≠ Int.tdiv (1000 * 997) 1000 :=
  ⟨by decide, by decide, by decide, rfl, by decide⟩

/-- C3 (amended): for every valid token pair and every successful SDK quote
response, the returned quote's `amountIn` is the requested amount for
EXACT_IN and the SDK response's `amountIn` for EXACT_OUT, and its
`amountOut` is the requested amount for EXACT_OUT and the SDK response's
`amountOut` for EXACT_IN; no local 0.3%-fee estimate is computed. -/
theorem getQuote_amounts_from_sdk (resp : SdkQuoteResponse) (params : QuoteParams)
    (hIn : isValidAddress params.tokenIn = true)
    (hOut : isValidAddress params.tokenOut = true) :
    ∃ q, (getQuote (.ok resp) params).1 = .ok q ∧
      q.amountIn = (if params.tradeType = .EXACT_IN then params.amount else resp.amountIn) ∧
      q.amountOut = (if params.tradeType = .EXACT_OUT then params.amount else resp.amountOut) := by
  unfold getQuote
  rw [if_neg (by simp [hIn, hOut])]
  exact ⟨_, rfl, rfl, rfl⟩

/-- Witness for the amended C3 at a concrete SDK response. -/
theorem getQuote_amounts_from_sdk_witness :
    isValidAddress xlmAddr = true ∧ isValidAddress usdcAddr = true ∧
    (∃ q, (getQuote (.ok ⟨999, 500, "0.1", none⟩) ⟨xlmAddr, usdcAddr, 1000, .EXACT_OUT⟩).1 =
        .ok q ∧
      q.amountIn =
        (if (TradeType.EXACT_OUT : TradeType) = .EXACT_IN then (1000 : Int) else 999) ∧
      q.amountOut =
        (if (TradeType.EXACT_OUT : TradeType) = .EXACT_OUT then (1000 : Int) else 500)) :=
  ⟨by decide, by decide,
   getQuote_amounts_from_sdk ⟨999, 500, "0.1", none⟩ ⟨xlmAddr, usdcAddr, 1000, .EXACT_OUT⟩
     (by decide) (by decide)⟩

/-- C5: constructing a `CrossmintWallet` (and hence calling `createWallet`
through a `StellarDefiClient`) with an empty API key fails synchronously with
a `ConfigurationError` of code `MISSING_API_KEY`; the constructor performs no
network call (it is a pure function of the config in this model). -/
theorem crossmintWallet_empty_api_key (config : CrossmintWalletConfig)
    (h : config.apiKey = "") :
    CrossmintWallet.mkState config =
      .error (.domain .configuration "API key is required" ErrorCodes.MISSING_API_KEY none) := by
  simp [CrossmintWallet.mkState, h]

/-- Witness for C5 at an otherwise well-formed testnet config. -/
theorem crossmintWallet_empty_api_key_witness :
    (CrossmintWalletConfig.mk "" .testnet none none).apiKey = "" ∧
    CrossmintWallet.mkState ⟨"", .testnet, none, none⟩ =
      .error (.domain .configuration "API key is required" ErrorCodes.MISSING_API_KEY none) :=
  ⟨rfl, crossmintWallet_empty_api_key ⟨"", .testnet, none, none⟩ rfl⟩

/-- C6 counterexample: on a 404 response `getWallet` does fail with code
`WALLET_NOT_FOUND`, but the thrown `WalletError` carries no `cause` — the
claim's "the wrapped cause field is populated" part is false at this input. -/
theorem getWallet_404_counterexample :
    getWallet ⟨"test-api-key", .testnet, "https://staging.crossmint.com/api"⟩
        "GADDR123" (.failure 404 (some "Wallet not found")) =
      .error (.domain .wallet "Wallet not found" ErrorCodes.WALLET_NOT_FOUND none) ∧
    (Thrown.domain .wallet "Wallet not found" ErrorCodes.WALLET_NOT_FOUND none).errCause =
      none :=
  ⟨rfl, rfl⟩

/-- C6 (amended): for every wallet state, address and 404 response,
`getWallet` fails with a `WalletError` of code `WALLET_NOT_FOUND` whose
`cause` field is empty (the 404 branch throws a fresh classified error; a
cause is attached only when the underlying fetch itself threw). -/
theorem getWallet_404_classified (st : CrossmintWalletState) (address : String)
    (errMsg : Option String) :
    getWallet st address (.failure 404 errMsg) =
      .error (.domain .wallet "Wallet not found" ErrorCodes.WALLET_NOT_FOUND none) := by
  simp [getWallet]

/-- C10: `getPool` does not throw on ill-formed addresses: for every pair
failing the 56-character/'C'-prefix rule it resolves successfully with
`null`. -/
theorem getPool_invalid_address_null (tokenA tokenB : String)
    (h : (isValidAddress tokenA && isValidAddress tokenB) = false) :
    getPool tokenA tokenB = .ok none := by
  simp [getPool]

/-- Witness for C10 at the unit test's inputs. -/
theorem getPool_invalid_address_null_witness :
    (isValidAddress "INVALID" && isValidAddress "ALSO_INVALID") = false ∧
    getPool "INVALID" "ALSO_INVALID" = .ok none :=
  ⟨by decide, getPool_invalid_address_null "INVALID" "ALSO_INVALID" (by decide)⟩

/-- C4: when the SDK quote call of `getQuote` fails with a thrown value, the
error surfaced to the caller is always a `DexError`; if the thrown value was
not itself a `DexError` it is re-wrapped with code `INSUFFICIENT_LIQUIDITY`
and, when it was an `Error`, carried as the wrapped cause.  Callers never
observe a raw (non-`DexError`) exception. -/
theorem getQuote_wraps_sdk_errors (sdk : Except Thrown SdkQuoteResponse)
    (params : QuoteParams) (t t0 : Thrown)
    (hsdk : sdk = .error t0)
    (hIn : isValidAddress params.tokenIn = true)
    (hOut : isValidAddress params.tokenOut = true)
    (h : (getQuote sdk params).1 = .error t) :
    t.isDexError = true ∧
    (t0.isDexError = false →
      t.errCode = ErrorCodes.INSUFFICIENT_LIQUIDITY ∧
      t.errCause = t0.asCause ∧
      (t0.isError = true → t.errCause = some t0)) := by
  subst hsdk
  unfold getQuote at h
  rw [if_neg (by simp [hIn, hOut])] at h
  by_cases hd : t0.isDexError = true
  · simp [hd] at h
    subst h
    exact ⟨hd, fun hc => absurd hd (by simp [hc])⟩
  · simp [hd] at h
    subst h
    refine ⟨rfl, fun _ => ⟨rfl, rfl, fun he => ?_⟩⟩
    simp [Thrown.errCause, Thrown.asCause, he]

/-- Witness for C4: the SDK throws a plain network `Error`. -/
theorem getQuote_wraps_sdk_errors_witness :
    isValidAddress xlmAddr = true ∧ isValidAddress usdcAddr = true ∧
    ((Thrown.domain .dex "Failed to get quote: boom" ErrorCodes.INSUFFICIENT_LIQUIDITY
        (some (.js "boom"))).isDexError = true ∧
     ((Thrown.js "boom").isDexError = false →
       (Thrown.domain .dex "Failed to get quote: boom" ErrorCodes.INSUFFICIENT_LIQUIDITY
          (some (.js "boom"))).errCode = ErrorCodes.INSUFFICIENT_LIQUIDITY ∧
       (Thrown.domain .dex "Failed to get quote: boom" ErrorCodes.INSUFFICIENT_LIQUIDITY
          (some (.js "boom"))).errCause = (Thrown.js "boom").asCause ∧
       ((Thrown.js "boom").isError = true →
         (Thrown.domain .dex "Failed to get quote: boom" ErrorCodes.INSUFFICIENT_LIQUIDITY
            (some (.js "boom"))).errCause = some (.js "boom")))) :=
  ⟨by decide, by decide,
   getQuote_wraps_sdk_errors (.error (.js "boom")) ⟨xlmAddr, usdcAddr, 1000, .EXACT_IN⟩
     (.domain .dex "Failed to get quote: boom" ErrorCodes.INSUFFICIENT_LIQUIDITY
       (some (.js "boom")))
     (.js "boom") rfl (by decide) (by decide) rfl⟩

/-- C9: every successful `getQuote` result echoes the requested token pair;
for EXACT_IN it has `amountIn = params.amount`, a defined `minimumReceived`
and no `maximumSent`; for EXACT_OUT it has `amountOut = params.amount`, a
defined `maximumSent` and no `minimumReceived`. -/
theorem getQuote_success_invariant (sdk : Except Thrown SdkQuoteResponse)
    (params : QuoteParams) (q : Quote)
    (h : (getQuote sdk params).1 = .ok q) :
    q.tokenIn = params.tokenIn ∧ q.tokenOut = params.tokenOut ∧
    (params.tradeType = .EXACT_IN →
      q.amountIn = params.amount ∧ q.minimumReceived.isSome = true ∧ q.maximumSent = none) ∧
    (params.tradeType = .EXACT_OUT →
      q.amountOut = params.amount ∧ q.maximumSent.isSome = true ∧ q.minimumReceived = none) := by
  unfold getQuote at h
  split at h
  · simp at h
  · cases sdk with
    | error err =>
      by_cases hd : err.isDexError = true <;> simp [hd] at h
    | ok resp =>
      simp at h
      subst h
      cases htt : params.tradeType <;> simp [htt]

/-- Witness for C9 at a concrete EXACT_IN quote. -/
theorem getQuote_success_invariant_witness :
    (Quote.mk xlmAddr usdcAddr 1000 500 "0.1" [xlmAddr, usdcAddr] (some 495) none).tokenIn =
      xlmAddr ∧
    (Quote.mk xlmAddr usdcAddr 1000 500 "0.1" [xlmAddr, usdcAddr] (some 495) none).tokenOut =
      usdcAddr ∧
    ((TradeType.EXACT_IN : TradeType) = .EXACT_IN →
      (Quote.mk xlmAddr usdcAddr 1000 500 "0.1" [xlmAddr, usdcAddr]
          (some 495) none).amountIn = (1000 : Int) ∧
      (Quote.mk xlmAddr usdcAddr 1000 500 "0.1" [xlmAddr, usdcAddr]
          (some 495) none).minimumReceived.isSome = true ∧
      (Quote.mk xlmAddr usdcAddr 1000 500 "0.1" [xlmAddr, usdcAddr]
          (some 495) none).maximumSent = none) ∧
    ((TradeType.EXACT_IN : TradeType) = .EXACT_OUT →
      (Quote.mk xlmAddr usdcAddr 1000 500 "0.1" [xlmAddr, usdcAddr]
          (some 495) none).amountOut = (1000 : Int) ∧
      (Quote.mk xlmAddr usdcAddr 1000 500 "0.1" [xlmAddr, usdcAddr]
          (some 495) none).maximumSent.isSome = true ∧
      (Quote.mk xlmAddr usdcAddr 1000 500 "0.1" [xlmAddr, usdcAddr]
          (some 495) none).minimumReceived = none) :=
  getQuote_success_invariant (.ok ⟨999, 500, "0.1", none⟩)
    ⟨xlmAddr, usdcAddr, 1000, .EXACT_IN⟩
    ⟨xlmAddr, usdcAddr, 1000, 500, "0.1", [xlmAddr, usdcAddr], some 495, none⟩ rfl

/-- C7: a successful `swapAndDeposit` issues, in order, an EXACT_IN
`getQuote` on `(tokenIn, tokenOut, amountIn)`, a `buildSwapTransaction` for
the same trade, and a `buildDepositTransaction` whose amounts list is exactly
`[quote.amountOut]`; the result's `estimatedAmountOut` is `quote.amountOut`. -/
theorem swapAndDeposit_sequence (env : ClientEnv) (params : SwapAndDepositParams)
    (res : SwapAndDepositResult) (quote : Quote)
    (hq : (getQuote env.sdkQuoteA
      ⟨params.tokenIn, params.tokenOut, params.amountIn, .EXACT_IN⟩).1 = .ok quote)
    (h : (swapAndDeposit env params).1 = .ok res) :
    (swapAndDeposit env params).2 =
      [.dexGetQuote ⟨params.tokenIn, params.tokenOut, params.amountIn, .EXACT_IN⟩,
       .dexBuildSwap ⟨params.tokenIn, params.tokenOut, params.amountIn, .EXACT_IN,
         params.slippageBps, none, params.sourceAddress⟩,
       .yieldBuildDeposit ⟨params.vault, [quote.amountOut], params.sourceAddress,
         params.slippageBps, params.invest⟩] ∧
    res.estimatedAmountOut = quote.amountOut := by
  cases hs : (buildSwapTransaction env.sdkQuoteB env.now
      ⟨params.tokenIn, params.tokenOut, params.amountIn, .EXACT_IN,
       params.slippageBps, none, params.sourceAddress⟩).1 with
  | error e => simp [swapAndDeposit, hq, hs] at h
  | ok swapTx =>
    cases hd : buildDepositTransaction
        ⟨params.vault, [quote.amountOut], params.sourceAddress,
         params.slippageBps, params.invest⟩ with
    | error e => simp [swapAndDeposit, hq, hs, hd] at h
    | ok depositTx =>
      simp only [swapAndDeposit, hq, hs, hd, Except.ok.injEq] at h ⊢
      subst h
      exact ⟨trivial, rfl⟩

/-- Witness for C7: every step succeeds against a concrete SDK response. -/
theorem swapAndDeposit_sequence_witness :
    (swapAndDeposit ⟨.ok ⟨999, 500, "0.1", none⟩, .ok ⟨999, 500, "0.1", none⟩, 1700000000⟩
        ⟨"GDTEST123456789", xlmAddr, usdcAddr, 1000, xlmAddr, none, none⟩).2 =
      [.dexGetQuote ⟨xlmAddr, usdcAddr, 1000, .EXACT_IN⟩,
       .dexBuildSwap ⟨xlmAddr, usdcAddr, 1000, .EXACT_IN, none, none, "GDTEST123456789"⟩,
       .yieldBuildDeposit ⟨xlmAddr, [(500 : Int)], "GDTEST123456789", none, none⟩] ∧
    (SwapAndDepositResult.mk
        ⟨"swap_exact_tokens_for_tokens", xlmAddr, usdcAddr, "1000", "495",
          [xlmAddr, usdcAddr], "GDTEST123456789", 1700001800⟩
        ⟨"deposit", xlmAddr, ["500"], "0", "GDTEST123456789", false, 100⟩
        500 0).estimatedAmountOut =
      (Quote.mk xlmAddr usdcAddr 1000 500 "0.1" [xlmAddr, usdcAddr]
        (some 495) none).amountOut :=
  swapAndDeposit_sequence
    ⟨.ok ⟨999, 500, "0.1", none⟩, .ok ⟨999, 500, "0.1", none⟩, 1700000000⟩
    ⟨"GDTEST123456789", xlmAddr, usdcAddr, 1000, xlmAddr, none, none⟩
    ⟨⟨"swap_exact_tokens_for_tokens", xlmAddr, usdcAddr, "1000", "495",
       [xlmAddr, usdcAddr], "GDTEST123456789", 1700001800⟩,
     ⟨"deposit", xlmAddr, ["500"], "0", "GDTEST123456789", false, 100⟩, 500, 0⟩
    ⟨xlmAddr, usdcAddr, 1000, 500, "0.1", [xlmAddr, usdcAddr], some 495, none⟩
    rfl rfl

/-- C8 counterexample: the claim's precondition (vault fetch and withdraw
build succeed) does not guarantee a result.  With the vault's asset
(`xlmAddr`) differing from `tokenOut` and the SDK quote failing, both
preconditions hold yet `withdrawAndSwap` propagates the swap-build error and
returns no result. -/
theorem withdrawAndSwap_not_total_counterexample :
    getVault xlmAddr = .ok (mockVaultDetail xlmAddr) ∧
    buildWithdrawTransaction ⟨xlmAddr, 1000, "GDTEST123456789", none, none⟩ =
      .ok ⟨"withdraw", xlmAddr, "1000", [], "GDTEST123456789", [], 100⟩ ∧
    (withdrawAndSwap ⟨.error (.js "network down"), .error (.js "network down"), 0⟩
        ⟨"GDTEST123456789", xlmAddr, 1000, usdcAddr, none⟩).1 =
      .error (.domain .dex "Failed to get quote: network down"
        ErrorCodes.INSUFFICIENT_LIQUIDITY (some (.js "network down"))) :=
  ⟨rfl, rfl, rfl⟩

/-- C8 (amended): whenever `withdrawAndSwap` as a whole succeeds (vault
fetch, withdraw build, and — when attempted — the conditional swap build),
the result carries no swap payload when the vault's first underlying asset
equals `params.tokenOut`, and otherwise carries a swap transaction built with
the vault's underlying asset as input token and `params.shares` as EXACT_IN
amount; in both cases `estimatedAmountOut = params.shares`. -/
theorem withdrawAndSwap_shape (env : ClientEnv) (params : WithdrawAndSwapParams)
    (res : WithdrawAndSwapResult) (vault : VaultDetail) (asset : String)
    (hv : getVault params.vault = .ok vault)
    (hasset : (vault.assets.head?).map VaultAsset.address = some asset)
    (h : (withdrawAndSwap env params).1 = .ok res) :
    res.estimatedAmountOut = params.shares ∧
    (asset = params.tokenOut →
      res.swapTxXdr = none ∧
      (withdrawAndSwap env params).2 =
        [.yieldGetVault params.vault,
         .yieldBuildWithdraw ⟨params.vault, params.shares, params.sourceAddress,
           params.slippageBps, none⟩]) ∧
    (¬ asset = params.tokenOut →
      res.swapTxXdr.isSome = true ∧
      (withdrawAndSwap env params).2 =
        [.yieldGetVault params.vault,
         .yieldBuildWithdraw ⟨params.vault, params.shares, params.sourceAddress,
           params.slippageBps, none⟩,
         .dexBuildSwap ⟨asset, params.tokenOut, params.shares, .EXACT_IN,
           params.slippageBps, none, params.sourceAddress⟩]) := by
  cases hw : buildWithdrawTransaction
      ⟨params.vault, params.shares, params.sourceAddress, params.slippageBps, none⟩ with
  | error e => simp [withdrawAndSwap, hv, hw] at h
  | ok withdrawTx =>
    by_cases he : asset = params.tokenOut
    · subst he
      simp [withdrawAndSwap, hv, hw, hasset] at h ⊢
      subst h
      exact ⟨rfl, rfl⟩
    · cases hhead : vault.assets.head? with
      | none => rw [hhead] at hasset; simp at hasset
      | some a0 =>
        rw [hhead] at hasset
        simp at hasset
        subst hasset
        cases hs : (buildSwapTransaction env.sdkQuoteB env.now
            ⟨a0.address, params.tokenOut, params.shares, .EXACT_IN,
             params.slippageBps, none, params.sourceAddress⟩).1 with
        | error e => simp [withdrawAndSwap, hv, hw, hhead, hs, he] at h
        | ok swapTx =>
          simp [withdrawAndSwap, hv, hw, hhead, hs, he] at h ⊢
          subst h
          exact ⟨rfl, rfl⟩

/-- Witness for the amended C8: vault asset `xlmAddr` differs from the
requested `usdcAddr` output, the SDK quote succeeds, and a swap is built. -/
theorem withdrawAndSwap_shape_witness :
    (WithdrawAndSwapResult.mk
        ⟨"withdraw", xlmAddr, "1000", [], "GDTEST123456789", [], 100⟩
        (some ⟨"swap_exact_tokens_for_tokens", xlmAddr, usdcAddr, "1000", "495",
          [xlmAddr, usdcAddr], "GDTEST123456789", 1700001800⟩)
        1000).estimatedAmountOut = (1000 : Int) ∧
    (xlmAddr = usdcAddr →
      (WithdrawAndSwapResult.mk
        ⟨"withdraw", xlmAddr, "1000", [], "GDTEST123456789", [], 100⟩
        (some ⟨"swap_exact_tokens_for_tokens", xlmAddr, usdcAddr, "1000", "495",
          [xlmAddr, usdcAddr], "GDTEST123456789", 1700001800⟩)
        1000).swapTxXdr = none ∧
      (withdrawAndSwap ⟨.ok ⟨999, 500, "0.1", none⟩, .ok ⟨999, 500, "0.1", none⟩, 1700000000⟩
          ⟨"GDTEST123456789", xlmAddr, 1000, usdcAddr, none⟩).2 =
        [.yieldGetVault xlmAddr,
         .yieldBuildWithdraw ⟨xlmAddr, 1000, "GDTEST123456789", none, none⟩]) ∧
    (¬ xlmAddr = usdcAddr →
      (WithdrawAndSwapResult.mk
        ⟨"withdraw", xlmAddr, "1000", [], "GDTEST123456789", [], 100⟩
        (some ⟨"swap_exact_tokens_for_tokens", xlmAddr, usdcAddr, "1000", "495",
          [xlmAddr, usdcAddr], "GDTEST123456789", 1700001800⟩)
        1000).swapTxXdr.isSome = true ∧
      (withdrawAndSwap ⟨.ok ⟨999, 500, "0.1", none⟩, .ok ⟨999, 500, "0.1", none⟩, 1700000000⟩
          ⟨"GDTEST123456789", xlmAddr, 1000, usdcAddr, none⟩).2 =
        [.yieldGetVault xlmAddr,
         .yieldBuildWithdraw ⟨xlmAddr, 1000, "GDTEST123456789", none, none⟩,
         .dexBuildSwap ⟨xlmAddr, usdcAddr, 1000, .EXACT_IN, none, none,
           "GDTEST123456789"⟩]) :=
  withdrawAndSwap_shape
    ⟨.ok ⟨999, 500, "0.1", none⟩, .ok ⟨999, 500, "0.1", none⟩, 1700000000⟩
    ⟨"GDTEST123456789", xlmAddr, 1000, usdcAddr, none⟩
    ⟨⟨"withdraw", xlmAddr, "1000", [], "GDTEST123456789", [], 100⟩,
     some ⟨"swap_exact_tokens_for_tokens", xlmAddr, usdcAddr, "1000", "495",
       [xlmAddr, usdcAddr], "GDTEST123456789", 1700001800⟩, 1000⟩
    (mockVaultDetail xlmAddr) xlmAddr rfl rfl rfl

end StellarDefi
